import Mathlib

/-!
Verification development for the CS172 reddit crawler (crawler.py).

The crawler spawns `num_procs` worker processes; each worker drains its own
queue of reddit post urls, fetches the post, expands subreddit mentions and
raw links found in the comments, writes one JSON line per post into a
size-rotated file, and charges shared page/byte budgets.

Shallow embedding conventions:
- Python strings are Lean `String` (a wrapper around `List Char`); the two
  regex scans of crawler.py are embedded as executable character-list scans
  that reproduce `re.findall` semantics (left-to-right, non-overlapping,
  leftmost alternative first, greedy character classes).
- The builtin Python `hash` on `str` is salted per interpreter process
  (PEP 456): it is modelled as an explicit parameter `pyHash : String → Int`,
  one such function per process.
- Machine integers (`multiprocessing.Value('q', ...)`) are `Int`; file sizes
  and byte counts are `Nat`.
- Per-item control flow of `parse_url` (the 429 retry loop) is embedded as a
  function over the list of outcomes the external content source produces
  for the successive attempts.
-/

namespace Crawler

/-- Word characters of the capture group in the pattern
`r/([A-Za-z0-9_]+)` compiled at crawler.py line 173 (ASCII letters,
digits and underscore). -/
def isWordChar (c : Char) : Bool := c.isAlphanum || c == '_'

/-- Whitespace as matched by the `[^\s]` character classes of the url
pattern at crawler.py lines 179-182 (ASCII whitespace). -/
def isSpaceChar (c : Char) : Bool :=
  c == ' ' || c == '\t' || c == '\n' || c == '\r' || c == '\x0b' || c == '\x0c'

/-- The scan behind `extract_subreddits` (crawler.py lines 172-175):
`re.findall` of `r/([A-Za-z0-9_]+)` returns, left to right and
non-overlapping, the capture group of every match.  The fuel argument is
instantiated with the text length by the wrapper; every step consumes at
least one character, so that fuel is always sufficient. -/
def extractSubsFuel : Nat → List Char → List (List Char)
  | 0, _ => []
  | _, [] => []
  | fuel + 1, c :: cs =>
    match c, cs with
    | 'r', '/' :: d :: rest =>
      if isWordChar d then
        (d :: rest.takeWhile isWordChar) :: extractSubsFuel fuel (rest.dropWhile isWordChar)
      else
        extractSubsFuel fuel cs
    | _, _ => extractSubsFuel fuel cs

/-- `Crawler.extract_subreddits` (crawler.py lines 172-175): the list of
capture-group strings, in match order, duplicates preserved (that is what
`findall` returns for a single-group pattern). -/
def extract_subreddits (text : String) : List String :=
  (extractSubsFuel text.data.length text.data).map String.mk

/-- Case-insensitive literal prefix match (the pattern literals are given
lowercase); returns the matched original characters and the remainder. -/
def stripPrefixCI : List Char → List Char → Option (List Char × List Char)
  | [], xs => some ([], xs)
  | _ :: _, [] => none
  | l :: ls, x :: xs =>
    if x.toLower == l then
      match stripPrefixCI ls xs with
      | some (m, r) => some (x :: m, r)
      | none => none
    else none

/-- First alternative `https?://[^\s]+` of the url pattern (crawler.py
line 180), `re.IGNORECASE`: the greedy optional `s` followed by `://` is
equivalent to trying the literal `https://` first and then `http://`;
the body `[^\s]+` is the longest nonempty run of non-whitespace. -/
def matchHttp (xs : List Char) : Option (List Char × List Char) :=
  let scheme :=
    match stripPrefixCI ['h', 't', 't', 'p', 's', ':', '/', '/'] xs with
    | some pr => some pr
    | none => stripPrefixCI ['h', 't', 't', 'p', ':', '/', '/'] xs
  match scheme with
  | none => none
  | some (m, rest) =>
    let body := rest.takeWhile (fun ch => !isSpaceChar ch)
    if body.isEmpty then none
    else some (m ++ body, rest.dropWhile (fun ch => !isSpaceChar ch))

/-- Second alternative `www\.[^\s]+` of the url pattern (crawler.py
line 180). -/
def matchWww (xs : List Char) : Option (List Char × List Char) :=
  match stripPrefixCI ['w', 'w', 'w', '.'] xs with
  | none => none
  | some (m, rest) =>
    let body := rest.takeWhile (fun ch => !isSpaceChar ch)
    if body.isEmpty then none
    else some (m ++ body, rest.dropWhile (fun ch => !isSpaceChar ch))

/-- The scan behind `extract_urls` (crawler.py lines 178-183): `re.findall`
of `(https?://[^\s]+)|(www\.[^\s]+)`.  Because the pattern has TWO groups,
`findall` returns one 2-tuple per match, the non-participating group being
the empty string.  Fuel is instantiated with the text length by the
wrapper; every step consumes at least one character. -/
def extractUrlsFuel : Nat → List Char → List (List Char × List Char)
  | 0, _ => []
  | _, [] => []
  | fuel + 1, x :: rest =>
    match matchHttp (x :: rest) with
    | some (m, r) => (m, []) :: extractUrlsFuel fuel r
    | none =>
      match matchWww (x :: rest) with
      | some (m, r) => ([], m) :: extractUrlsFuel fuel r
      | none => extractUrlsFuel fuel rest

/-- `Crawler.extract_urls` (crawler.py lines 178-183): a list of PAIRS of
strings, one per match — the verbatim return value of `findall` on a
two-group pattern. -/
def extract_urls (text : String) : List (String × String) :=
  (extractUrlsFuel text.data.length text.data).map
    (fun p => (String.mk p.1, String.mk p.2))

/-- `Crawler.hash` (crawler.py lines 186-187): `abs(hash(value)) % num_procs`.
`hash` is Python's builtin salted string hash; each interpreter process has
its own salt, so the builtin is modelled as an explicit per-process
function `pyHash : String → Int`. -/
def hash (pyHash : String → Int) (num_procs : Nat) (value : String) : Nat :=
  (pyHash value).natAbs % num_procs

/-- The dedup guard at the top of `parse_url` (crawler.py lines 141-146):
return without fetching when the url is already in this process's
`self.visited`; otherwise add the url (before the fetch) and fetch.  The
first component says whether a fetch happens, the second is the updated
visited set.  `self.visited` is a plain Python `set()` created at line 56
before the workers are spawned, hence one private copy per worker
process. -/
def parse_url_visit (visited : List String) (url : String) : Bool × List String :=
  if url ∈ visited then (false, visited) else (true, url :: visited)

/-- One worker draining its queue with its own private visited copy:
returns the urls it actually fetches, in order. -/
def runWorkerQueue : List String → List String → List String
  | [], _ => []
  | u :: rest, visited =>
    let fv := parse_url_visit visited u
    (if fv.1 then [u] else []) ++ runWorkerQueue rest fv.2

/-- The page charge on the success path of `parse_url` (crawler.py lines
158-159): take the lock of `num_pages` and decrement — there is no check of
the remaining value and no returned success flag. -/
def chargePage (num_pages : Int) : Int := num_pages - 1

/-- The byte charge at the end of `save_to_json` (crawler.py lines
263-265): take the lock of `size_limit` and subtract the serialized size —
again no check and no returned flag. -/
def chargeBytes (size_limit : Int) (jsz : Nat) : Int := size_limit - jsz

/-- The dirty read at the top of the spider loop (crawler.py line 119):
`num_pages.value > 0 and size_limit.value > 0`, evaluated without taking
either lock. -/
def spiderGate (num_pages size_limit : Int) : Bool :=
  decide (num_pages > 0) && decide (size_limit > 0)

/-- Shared page counter together with the number of workers that have
passed the loop-top gate and still owe their (at most one) decrement for
the current item. -/
structure BudgetState where
  pages : Int
  inflight : Nat
deriving DecidableEq

/-- Interleaved steps of the `num_pages` protocol that crawler.py actually
implements with `W` workers: a worker may start an item only after the
dirty gate of line 119 reports a positive value (`enter`); while holding an
item it either reaches the success path and decrements once without any
further check (`charge`, lines 158-159) or finishes the item without
charging (`skip`: visited-set hit or fetch failure). -/
inductive BudgetStep (W : Nat) : BudgetState → BudgetState → Prop
  | enter (s : BudgetState) (sz : Int) (hgate : spiderGate s.pages sz = true)
      (hW : s.inflight < W) : BudgetStep W s ⟨s.pages, s.inflight + 1⟩
  | charge (s : BudgetState) (hin : 0 < s.inflight) :
      BudgetStep W s ⟨chargePage s.pages, s.inflight - 1⟩
  | skip (s : BudgetState) (hin : 0 < s.inflight) :
      BudgetStep W s ⟨s.pages, s.inflight - 1⟩

/-- Reachability under `BudgetStep`. -/
inductive BudgetReach (W : Nat) (s0 : BudgetState) : BudgetState → Prop
  | refl : BudgetReach W s0 s0
  | step {s t : BudgetState} : BudgetReach W s0 s → BudgetStep W s t →
      BudgetReach W s0 t

/-- A queue entry produced by `parse_comment`: destination queue index and
the url that is put (crawler.py lines 197 and 204). -/
structure EnqEffect where
  queueIdx : Nat
  url : String
deriving DecidableEq

/-- External collaborators of `parse_comment` (PRAW): `subredditNew s` is
the list of post urls of `subreddit(s).new(limit=1000)`;
`resolveSubmission link` is `reddit.submission(url=link)` — `some
(subreddit display name, submission url)` on success, `none` when the call
raises.  Note its argument is the PAIR that `extract_urls` produces. -/
structure RedditOracle where
  subredditNew : String → List String
  resolveSubmission : String × String → Option (String × String)

/-- `Crawler.parse_comment` (crawler.py lines 190-208) for one comment
body: every subreddit mention is expanded into the urls of up to 1000 of
its newest posts, each enqueued to queue `hash(post.url)`; every extracted
link is resolved as a submission — on success its url is enqueued to queue
`hash(subreddit name)`, on failure the link value is appended to
`links_out`.  Finally the body is appended to `comments_out`.  The queue
entries carry the bare url string: there is no hop counter anywhere. -/
def parse_comment (oracle : RedditOracle) (pyHash : String → Int)
    (num_procs : Nat) (body : String) (comments_out : List String)
    (links_out : List (String × String)) :
    List EnqEffect × List String × List (String × String) :=
  let subs := extract_subreddits body
  let links := extract_urls body
  let enqSubs := subs.flatMap (fun s =>
    ((oracle.subredditNew s).take 1000).map
      (fun u => ⟨Crawler.hash pyHash num_procs u, u⟩))
  let step := fun (acc : List EnqEffect × List (String × String))
      (link : String × String) =>
    match oracle.resolveSubmission link with
    | some (subname, url) =>
        (acc.1 ++ [⟨Crawler.hash pyHash num_procs subname, url⟩], acc.2)
    | none => (acc.1, acc.2 ++ [link])
  let resolved := links.foldl step ([], links_out)
  (enqSubs ++ resolved.1, comments_out ++ [body], resolved.2)

/-- What the content source does on one attempt of the retry loop of
`parse_url` (crawler.py lines 148-169): raise the distinguished
`received 429 HTTP response`, raise any other error, or let
`parse_submission` run to completion. -/
inductive AttemptResult
  | rateLimited
  | fetchError
  | ok
deriving DecidableEq

/-- One attempt of the retry loop: the queue entries `parse_comment`
managed to put before the attempt's outcome, and the outcome itself. -/
structure Attempt where
  enqueues : List EnqEffect
  result : AttemptResult

/-- Observable state accumulated over the attempts of one item: all queue
entries (flattened, in order), all persisted record lines, the two shared
budget counters, and the seconds spent in `time.sleep` backoffs. -/
structure RunState where
  queues : List EnqEffect
  records : List String
  pages : Int
  size_limit : Int
  sleepSeconds : Nat
deriving DecidableEq

/-- Backoff of the 429 branch: `time.sleep(2)` (crawler.py line 166). -/
def rate_limit_backoff : Nat := 2

/-- The retry loop of `parse_url` (crawler.py lines 148-169), driven by the
list of outcomes of the successive attempts on the SAME url.  Enqueues
performed inside an attempt take effect unconditionally (there is no
rollback).  On `rateLimited` the worker sleeps the fixed backoff and
retries; on any other error it breaks, leaving every counter untouched; on
success `save_to_json` appends exactly one record line and charges the
serialized byte size (crawler.py lines 257-265), and then the page counter
is decremented once (lines 158-159). -/
def parse_url_attempts (record : String) (jsz : Nat) :
    List Attempt → RunState → RunState
  | [], s => s
  | a :: rest, s =>
    let s1 : RunState := { s with queues := s.queues ++ a.enqueues }
    match a.result with
    | AttemptResult.rateLimited =>
        parse_url_attempts record jsz rest
          { s1 with sleepSeconds := s1.sleepSeconds + rate_limit_backoff }
    | AttemptResult.fetchError => s1
    | AttemptResult.ok =>
        { s1 with records := s1.records ++ [record],
                  size_limit := chargeBytes s1.size_limit jsz,
                  pages := chargePage s1.pages }

/-- The rotation ceiling hardcoded in `save_to_json` (crawler.py line 255):
`10*1024*1024` bytes. -/
def rotation_ceiling : Nat := 10 * 1024 * 1024

/-- The scan of `save_to_json` (crawler.py lines 254-256): starting from
index 0, skip every file that exists and already has size at least the
ceiling; the chosen index is the first absent or not-yet-full file.  The
state is the list of current sizes of the existing files 0, 1, ...;
indices past the end are absent files. -/
def chooseIndex : List Nat → Nat
  | [] => 0
  | sz :: rest => if rotation_ceiling ≤ sz then chooseIndex rest + 1 else 0

/-- Appending `b` bytes to file `i` (crawler.py lines 257-259): `open(...,
'a')` creates the file when absent. -/
def writeAt : List Nat → Nat → Nat → List Nat
  | [], _, b => [b]
  | sz :: rest, 0, b => (sz + b) :: rest
  | sz :: rest, i + 1, b => sz :: writeAt rest i b

/-- One complete, serialized `save_to_json` append of a record whose
serialized size is `jsz` bytes: `json.dump` writes `jsz` bytes plus the
trailing newline to the file chosen by the scan. -/
def save_append (sizes : List Nat) (jsz : Nat) : List Nat :=
  writeAt sizes (chooseIndex sizes) (jsz + 1)

/-- A sequence of serialized appends. -/
def runAppends (sizes : List Nat) (recs : List Nat) : List Nat :=
  recs.foldl save_append sizes

end Crawler


namespace Crawler

/-- Inductive invariant of the page-budget protocol of crawler.py: every
worker passes the loop-top gate (pages strictly positive) before it can owe
a decrement, and owes at most one decrement per item, so the pages counter
always dominates `1 - W + inflight`. -/
theorem budget_inv {W : Nat} {P0 : Int} {s : BudgetState} (hW : 1 ≤ W)
    (hP : 0 ≤ P0) (h : BudgetReach W ⟨P0, 0⟩ s) :
    1 - (W : Int) + s.inflight ≤ s.pages := by
  induction h with
  | refl =>
    dsimp only
    omega
  | step hr hs ih =>
    cases hs with
    | enter sz hgate hW2 =>
      simp only [spiderGate, Bool.and_eq_true, decide_eq_true_eq] at hgate
      obtain ⟨h1, h2⟩ := hgate
      dsimp only at ih ⊢
      omega
    | charge hin =>
      dsimp only [chargePage] at ih ⊢
      omega
    | skip hin =>
      dsimp only at ih ⊢
      omega

/-- C3 counterexample: the charge operations of crawler.py check nothing and
return nothing — charging at zero remaining pages still decrements
(`chargePage 0 = -1`), and with three workers that all passed the loop-top
gate while one page remained, the counter reaches `-2`, which is more
negative than the single in-flight decrement the claim allows. -/
theorem c3_counterexample :
    chargePage 0 = -1 ∧ BudgetReach 3 ⟨1, 0⟩ ⟨-2, 0⟩ ∧ ((-2 : Int) < -1) := by
  refine ⟨by decide, ?_, by decide⟩
  have e1 : BudgetStep 3 ⟨1, 0⟩ ⟨1, 1⟩ :=
    BudgetStep.enter ⟨1, 0⟩ 1 (by decide) (by decide)
  have e2 : BudgetStep 3 ⟨1, 1⟩ ⟨1, 2⟩ :=
    BudgetStep.enter ⟨1, 1⟩ 1 (by decide) (by decide)
  have e3 : BudgetStep 3 ⟨1, 2⟩ ⟨1, 3⟩ :=
    BudgetStep.enter ⟨1, 2⟩ 1 (by decide) (by decide)
  have d1 : BudgetStep 3 ⟨1, 3⟩ ⟨0, 2⟩ := BudgetStep.charge ⟨1, 3⟩ (by decide)
  have d2 : BudgetStep 3 ⟨0, 2⟩ ⟨-1, 1⟩ := BudgetStep.charge ⟨0, 2⟩ (by decide)
  have d3 : BudgetStep 3 ⟨-1, 1⟩ ⟨-2, 0⟩ := BudgetStep.charge ⟨-1, 1⟩ (by decide)
  exact BudgetReach.step (BudgetReach.step (BudgetReach.step (BudgetReach.step
    (BudgetReach.step (BudgetReach.step BudgetReach.refl e1) e2) e3) d1) d2) d3

/-- C3 (amended): the page and byte charges take the lock and decrement
unconditionally, returning nothing; exhaustion is only observed by the
dirty loop-top read, so with `W` workers and a non-negative initial page
budget the counter never drops below `1 - W` — one in-flight decrement per
worker, not one in total. -/
theorem c3_budget_floor (W : Nat) (P0 : Int) (s : BudgetState) (hW : 1 ≤ W)
    (hP : 0 ≤ P0) (h : BudgetReach W ⟨P0, 0⟩ s) : 1 - (W : Int) ≤ s.pages := by
  have hinv := budget_inv hW hP h
  omega

/-- C3 witness: with two workers and five initial pages, the floor holds at
the initial state. -/
theorem c3_budget_floor_witness :
    1 - ((2 : Nat) : Int) ≤ (BudgetState.mk 5 0).pages :=
  c3_budget_floor 2 5 ⟨5, 0⟩ (by decide) (by decide) BudgetReach.refl

/-- C2 counterexample: `Crawler.hash` calls Python's builtin salted string
hash, so two independently started worker processes (two salts, modelled by
two hash functions) can route the same identifier to different queue
indices — the assignment is not a function of `(identifier, workerCount)`
alone. -/
theorem c2_counterexample :
    Crawler.hash (fun _ => (0 : Int)) 2 "a" = 0 ∧
    Crawler.hash (fun _ => (1 : Int)) 2 "a" = 1 ∧
    Crawler.hash (fun _ => (0 : Int)) 2 "a" ≠
      Crawler.hash (fun _ => (1 : Int)) 2 "a" :=
  ⟨rfl, rfl, by decide⟩

/-- C2 (amended): for every identifier and every worker count `n > 0`,
`abs(hash(value)) % n` is an index in `[0, n)`, and the index depends only
on the salted hash of the identifier — processes whose builtin hash agrees
on the identifier (in particular, repeated calls inside one process) obtain
the identical index. -/
theorem c2_assign_range_fixed_seed (pyHash : String → Int) (v : String)
    (n : Nat) (hn : 0 < n) :
    Crawler.hash pyHash n v < n ∧
    ∀ pyHash2 : String → Int, pyHash2 v = pyHash v →
      Crawler.hash pyHash2 n v = Crawler.hash pyHash n v := by
  refine ⟨Nat.mod_lt _ hn, ?_⟩
  intro pyHash2 hh
  simp [Crawler.hash, hh]

/-- C2 witness: the range bound at a concrete salt, identifier and worker
count. -/
theorem c2_assign_range_witness :
    Crawler.hash (fun _ => (7 : Int)) 3 "x" < 3 :=
  (c2_assign_range_fixed_seed (fun _ => (7 : Int)) "x" 3 (by decide)).1

/-- C1: the visited set of crawler.py is one private copy per worker
process, and queue routing goes through the per-process salted hash, so the
same url can be placed on two different workers' queues (here: the seeding
process routes it to queue 0, a discovering worker with a different salt
routes it to queue 1) and each of the two workers then fetches it — the url
is fetched twice in one run even though each worker added it to its visited
copy before the first fetch. -/
theorem c1_duplicate_fetch_eval :
    Crawler.hash (fun _ => (0 : Int)) 2 "https://www.reddit.com/r/x/1" = 0 ∧
    Crawler.hash (fun _ => (1 : Int)) 2 "https://www.reddit.com/r/x/1" = 1 ∧
    runWorkerQueue ["https://www.reddit.com/r/x/1"] [] ++
        runWorkerQueue ["https://www.reddit.com/r/x/1"] [] =
      ["https://www.reddit.com/r/x/1", "https://www.reddit.com/r/x/1"] :=
  ⟨rfl, rfl, by decide⟩

/-- C4: `parse_comment` enqueues every discovered post unconditionally and
its queue entries are bare url strings — no hop counter exists, so an item
with zero remaining hops still yields further work items: on the comment
body `see r/a`, with subreddit `a` having one recent post `http://p`, the
enqueue list is nonempty where the claim requires it to be empty. -/
theorem c4_no_hop_tracking_eval :
    (parse_comment ⟨fun s => if s = "a" then ["http://p"] else [], fun _ => none⟩
        (fun _ => (0 : Int)) 2 "see r/a" [] []).1 = [⟨0, "http://p"⟩] ∧
    (parse_comment ⟨fun s => if s = "a" then ["http://p"] else [], fun _ => none⟩
        (fun _ => (0 : Int)) 2 "see r/a" [] []).1 ≠ [] :=
  ⟨by decide, by decide⟩

/-- C5: `extract_urls` applies `re.findall` to a TWO-group pattern, so it
returns one pair of strings per match, not a string: on the spec's own test
input the result is `[("http://example.com", "")]`, not
`["http://example.com"]`; the empty input yields the empty list. -/
theorem c5_extract_urls_tuples_eval :
    extract_urls "check out r/testsub and http://example.com" =
      [("http://example.com", "")] ∧
    extract_urls "" = [] :=
  ⟨by decide, by decide⟩

/-- C6 counterexample: `extract_subreddits` is `findall`, a list with
duplicates preserved — on `r/a r/a` it returns `["a", "a"]`, which is not
duplicate-free, contradicting the claimed set semantics. -/
theorem c6_counterexample :
    extract_subreddits "r/a r/a" = ["a", "a"] ∧
    ¬ (extract_subreddits "r/a r/a").Nodup :=
  ⟨by decide, by decide⟩

/-- C6 (amended): `extract_subreddits` returns the ordered list of capture
groups of `r/([A-Za-z0-9_]+)`, duplicates preserved; the spec's particular
examples hold: `["testsub"]` on the test sentence, `[]` on the empty
string, and `["a", "a"]` (not a collapsed set) on a repeated mention. -/
theorem c6_extract_subreddits_eval :
    extract_subreddits "check out r/testsub and http://example.com" =
      ["testsub"] ∧
    extract_subreddits "" = [] ∧
    extract_subreddits "r/a r/a" = ["a", "a"] :=
  ⟨by decide, by decide, by decide⟩

/-- C7: when the content source rate-limits twice and then succeeds for one
item, the retry loop sleeps the fixed backoff twice, retries the same item,
persists exactly one record, charges the byte budget once and the page
budget once — not three times. -/
theorem c7_rate_limit_retry (s : RunState) (record : String) (jsz : Nat)
    (e1 e2 e3 : List EnqEffect) :
    parse_url_attempts record jsz
        [⟨e1, AttemptResult.rateLimited⟩, ⟨e2, AttemptResult.rateLimited⟩,
          ⟨e3, AttemptResult.ok⟩] s =
      { queues := s.queues ++ e1 ++ e2 ++ e3,
        records := s.records ++ [record],
        pages := s.pages - 1,
        size_limit := s.size_limit - jsz,
        sleepSeconds := s.sleepSeconds + rate_limit_backoff + rate_limit_backoff } :=
  rfl

/-- C8: on any fetch failure other than the rate limit the item is
abandoned: the loop breaks, no record is persisted, neither budget counter
is charged, and the item is not requeued — the state changes only by the
expansion enqueues that happened before the failure (none when the fetch
itself fails). -/
theorem c8_fetch_error_abandons (s : RunState) (record : String) (jsz : Nat)
    (e : List EnqEffect) :
    parse_url_attempts record jsz [⟨e, AttemptResult.fetchError⟩] s =
      { s with queues := s.queues ++ e } :=
  rfl

/-- C10: a rate-limited attempt keeps its expansion enqueues (nothing is
rolled back) and persists no record, so a retried item enqueues the same
discovered url once per attempt — twice in this run — while the output
record is written exactly once, by the final successful attempt. -/
theorem c10_retry_enqueues_persist (s : RunState) (record : String)
    (jsz : Nat) (q : EnqEffect) :
    (parse_url_attempts record jsz [⟨[q], AttemptResult.rateLimited⟩] s =
      { s with queues := s.queues ++ [q],
               sleepSeconds := s.sleepSeconds + rate_limit_backoff }) ∧
    (parse_url_attempts record jsz
        [⟨[q], AttemptResult.rateLimited⟩, ⟨[q], AttemptResult.ok⟩] s).queues =
      s.queues ++ [q] ++ [q] ∧
    (parse_url_attempts record jsz
        [⟨[q], AttemptResult.rateLimited⟩, ⟨[q], AttemptResult.ok⟩] s).records =
      s.records ++ [record] :=
  ⟨rfl, rfl, rfl⟩

/-- One serialized `save_to_json` append preserves the rotation bound: the
scan only ever writes into a file whose current size is below the ceiling
(or into a fresh file), so afterwards every file is still within the
ceiling plus one record line. -/
theorem save_append_bound (B r : Nat) (hr : r ≤ B) :
    ∀ sizes : List Nat, (∀ s ∈ sizes, s ≤ rotation_ceiling + B) →
      ∀ s ∈ save_append sizes r, s ≤ rotation_ceiling + B := by
  intro sizes
  induction sizes with
  | nil =>
    intro _ s hs
    have hc : 0 < rotation_ceiling := by decide
    simp only [save_append, chooseIndex, writeAt, List.mem_singleton] at hs
    omega
  | cons sz rest ih =>
    intro hbound s hs
    by_cases hfull : rotation_ceiling ≤ sz
    · have hred : save_append (sz :: rest) r = sz :: save_append rest r := by
        simp [save_append, chooseIndex, hfull, writeAt]
      rw [hred] at hs
      rcases List.mem_cons.mp hs with h | h
      · subst h
        exact hbound s (List.mem_cons_self s rest)
      · exact ih (fun t ht => hbound t (List.mem_cons_of_mem _ ht)) s h
    · have hred : save_append (sz :: rest) r = (sz + (r + 1)) :: rest := by
        simp [save_append, chooseIndex, hfull, writeAt]
      rw [hred] at hs
      rcases List.mem_cons.mp hs with h | h
      · omega
      · exact hbound s (List.mem_cons_of_mem _ h)

/-- C9 (amended): when appends are serialized — each `save_to_json` scan
immediately followed by its write — no output file ever exceeds the 10 MiB
rotation ceiling by more than one record's serialized line: starting from
any directory state within the bound, any sequence of appends of records of
serialized size at most `B` keeps every file size at most `ceiling + B`. -/
theorem c9_rotation_bound_serialized (B : Nat) (recs : List Nat) :
    ∀ sizes : List Nat, (∀ r ∈ recs, r ≤ B) →
      (∀ s ∈ sizes, s ≤ rotation_ceiling + B) →
      ∀ s ∈ runAppends sizes recs, s ≤ rotation_ceiling + B := by
  induction recs with
  | nil =>
    intro sizes _ hsizes
    simpa [runAppends] using hsizes
  | cons r rest ih =>
    intro sizes hrecs hsizes
    have h1 : ∀ s ∈ save_append sizes r, s ≤ rotation_ceiling + B :=
      save_append_bound B r (hrecs r (List.mem_cons_self r rest)) sizes hsizes
    have h2 : runAppends sizes (r :: rest) = runAppends (save_append sizes r) rest :=
      rfl
    rw [h2]
    exact ih (save_append sizes r) (fun t ht => hrecs t (List.mem_cons_of_mem _ ht)) h1

/-- C9 witness: two serialized appends of records of sizes 3 and 5 into an
empty directory give a single file of 10 bytes, within the bound. -/
theorem c9_rotation_bound_witness :
    runAppends [] [3, 5] = [10] ∧ 10 ≤ rotation_ceiling + 5 :=
  ⟨by decide,
    c9_rotation_bound_serialized 5 [3, 5] [] (by decide) (by decide) 10 (by decide)⟩

/-- C9 counterexample: the size check and the write of `save_to_json` are
not one atomic unit across worker processes — two workers that both run the
scan while the single file holds `ceiling - 1` bytes both choose index 0,
and after both append their 6-byte record line the file holds
`ceiling + 11` bytes, exceeding the ceiling by more than one record's
serialized size (5). -/
theorem c9_counterexample :
    chooseIndex [rotation_ceiling - 1] = 0 ∧
    writeAt (writeAt [rotation_ceiling - 1] (chooseIndex [rotation_ceiling - 1]) 6)
        (chooseIndex [rotation_ceiling - 1]) 6 = [rotation_ceiling + 11] ∧
    rotation_ceiling + 5 < rotation_ceiling + 11 :=
  ⟨by decide, by decide, by decide⟩

end Crawler
